import Mathlib

/-!
Shallow embedding of `scripts/eval_novel_view.py` (SGS-SLAM evaluation driver)
and proofs about its observable behaviour: path derivation, configuration
defaults, dataset-name dispatch, scene-parameter loading, semantic filtering,
evaluation dispatch and the tracking-service lifecycle.

Paths are modelled as `List Char`; `os.path.join` is embedded including its
absolute-second-argument behaviour.  Python dicts holding configuration values
are modelled as association lists over a small dynamic value type.
-/

namespace EvalNovelView

/-- Embedding of `os.path.join a b` (two-argument form): if `b` is absolute it
replaces `a`; if `a` is empty the result is `b`; otherwise a separator is
inserted unless `a` already ends with one. -/
def joinPath (a b : List Char) : List Char :=
  if b.head? = some '/' then b
  else if a = [] then b
  else if a.getLast? = some '/' then a ++ b
  else a ++ '/' :: b

/-- A dynamically typed configuration value (Python values in the config dict). -/
inductive Val where
  | vBool (b : Bool)
  | vInt (n : Int)
  | vStr (s : List Char)
  deriving DecidableEq, Repr

/-- A Python dict of configuration entries, as an association list. -/
def Dict := List (String × Val)

/-- `d[k]` as an optional lookup. -/
def Dict.lookup (d : Dict) (k : String) : Option Val :=
  List.lookup k d

/-- Embedding of `if k not in d: d[k] = v` (used for config defaults). -/
def Dict.setDefault (d : Dict) (k : String) (v : Val) : Dict :=
  if (d.lookup k).isSome then d else (k, v) :: d

/-- The driver's scene-path resolution: `results_dir = join(workdir, run_name)`;
if the config has no `scene_path` key, `scene_path = join(results_dir,
"params.npz")`, otherwise the configured value is used unmodified. -/
def scenePathOf (workdir runName : List Char) (scenePathCfg : Option (List Char)) :
    List Char :=
  match scenePathCfg with
  | none => joinPath (joinPath workdir runName) ("params.npz".toList)
  | some p => p

/-- The driver's dataset-config defaulting step:
`ignore_bad` defaults to `False`, `use_train_split` defaults to `True`. -/
def applyDatasetDefaults (d : Dict) : Dict :=
  (d.setDefault "ignore_bad" (.vBool false)).setDefault "use_train_split" (.vBool true)

/-- The driver's frame-count resolution: `num_frames = dataset_config["num_frames"]`
(a key-lookup failure when absent), then `if num_frames == -1: num_frames =
len(dataset)`. -/
def resolveNumFrames (d : Dict) (datasetLen : Nat) : Except String Val :=
  match d.lookup "num_frames" with
  | none => .error "KeyError: num_frames"
  | some v => .ok (if v = .vInt (-1) then .vInt (datasetLen : Int) else v)

/-- The driver's semantics setup: when the `load_semantics` key is present its
value is used (whatever it is), `num_semantic_classes` becomes a required
lookup, and `semantic_ids` is added to the (initially empty) optimization
exclusion set; when absent, `load_semantics=False`, `num_semantic_classes=0`
and the exclusion set stays empty.  Returns
`(load_semantics, num_semantic_classes, params_opt_exclude)`. -/
def semanticsSetup (d : Dict) : Except String (Val × Val × List String) :=
  match d.lookup "load_semantics" with
  | some v =>
    match d.lookup "num_semantic_classes" with
    | none => .error "KeyError: num_semantic_classes"
    | some c => .ok (v, c, ["semantic_ids"])
  | none => .ok (.vBool false, .vInt 0, [])

/-- Embedding of Python's `str.lower()` (ASCII case folding, which covers all
dataset names used here), written as a structural map so it evaluates. -/
def pyLower (s : String) : String :=
  ⟨s.data.map Char.toLower⟩

/-- The dataset adapter variants the driver can construct. -/
inductive DatasetKind where
  | ICL | Replica | ReplicaV2 | AzureKinect | Scannet
  | Ai2thor | Record3D | Realsense | TUM | ScannetPP
  deriving DecidableEq, Repr

/-- A dataset-adapter construction: which variant, and whether the config dict
is passed to its constructor (`ScannetPPDataset` is the one built without it). -/
structure DatasetCall where
  kind : DatasetKind
  passesConfigDict : Bool
  deriving DecidableEq, Repr

/-- Embedding of `get_dataset`: the chain of
`config_dict["dataset_name"].lower() in [...]` tests, each constructing the
matching adapter, with a `ValueError` for an unknown name. -/
def get_dataset (dataset_name : String) : Except String DatasetCall :=
  if pyLower dataset_name ∈ (["icl"] : List String) then .ok ⟨.ICL, true⟩
  else if pyLower dataset_name ∈ (["replica"] : List String) then .ok ⟨.Replica, true⟩
  else if pyLower dataset_name ∈ (["replicav2"] : List String) then .ok ⟨.ReplicaV2, true⟩
  else if pyLower dataset_name ∈ (["azure", "azurekinect"] : List String) then
    .ok ⟨.AzureKinect, true⟩
  else if pyLower dataset_name ∈ (["scannet"] : List String) then .ok ⟨.Scannet, true⟩
  else if pyLower dataset_name ∈ (["ai2thor"] : List String) then .ok ⟨.Ai2thor, true⟩
  else if pyLower dataset_name ∈ (["record3d"] : List String) then .ok ⟨.Record3D, true⟩
  else if pyLower dataset_name ∈ (["realsense"] : List String) then .ok ⟨.Realsense, true⟩
  else if pyLower dataset_name ∈ (["tum"] : List String) then .ok ⟨.TUM, true⟩
  else if pyLower dataset_name ∈ (["scannetpp"] : List String) then .ok ⟨.ScannetPP, false⟩
  else .error ("Unknown dataset name " ++ dataset_name)

/-- The ten dataset names the specification lists as supported. -/
def supportedDatasetNames : List String :=
  ["ICL", "Replica", "ReplicaV2", "AzureKinect", "Scannet",
   "Ai2thor", "Record3D", "Realsense", "TUM", "ScannetPP"]

/-- The lower-cased name strings `get_dataset` actually accepts: the ten
supported names plus the extra alias `azure` for the AzureKinect adapter. -/
def acceptedDatasetNames : List String :=
  ["icl", "replica", "replicav2", "azure", "azurekinect", "scannet",
   "ai2thor", "record3d", "realsense", "tum", "scannetpp"]

/-- A numeric array in the scene-parameter archive (`np.load` entry): its
dtype class and its rows.  Element values are abstracted to integers; only
shape and identity of rows matter for the driver's transformations. -/
structure NpArray where
  dtypeFloat : Bool
  rows : List (List Int)
  deriving DecidableEq, Repr

/-- A torch tensor as the driver observes it: residence device, floating-point
dtype flag, gradient-tracking flag, and row data. -/
structure Tensor where
  device : String
  isFloat : Bool
  requiresGrad : Bool
  rows : List (List Int)
  deriving DecidableEq, Repr

/-- Embedding of `load_scene_data`: every archive entry becomes a tensor on
`device`; keys outside `params_opt_exclude` are additionally converted to
float and marked `requires_grad`; excluded keys keep their dtype and are not
gradient-tracked. -/
def load_scene_data (archive : List (String × NpArray))
    (params_opt_exclude : List String) (device : String) :
    List (String × Tensor) :=
  archive.map (fun e =>
    if params_opt_exclude.contains e.1 = false then
      (e.1, ⟨device, true, true, e.2.rows⟩)
    else
      (e.1, ⟨device, e.2.dtypeFloat, false, e.2.rows⟩))

/-- Boolean row-mask application, embedding torch boolean indexing
`t[mask]` for a one-dimensional mask aligned with the rows of `t`. -/
def maskRows (t : Tensor) (keep : List Bool) : Tensor :=
  { t with rows := ((t.rows.zip keep).filter (fun rb => rb.2)).map (fun rb => rb.1) }

/-- The removal mask computed by `filter_semantic_params`:
`(semantic_ids == to_remove_ids.unsqueeze(0)).any(dim=1)` for `semantic_ids`
of shape (N,1) broadcast against the (1,K) removal-id row — row i is removed
exactly when one of its entries equals some removal id. -/
def toRemoveMask (semRows : List (List Int)) (to_remove_ids : List Int) :
    List Bool :=
  semRows.map (fun row => row.any (fun v => to_remove_ids.contains v))

/-- Embedding of `filter_semantic_params`: when a `semantic_ids` entry exists,
the keep mask (negated removal mask) is applied to every parameter except
`cam_unnorm_rots` and `cam_trans`; without a `semantic_ids` entry the params
are returned unchanged. -/
def filter_semantic_params (params : List (String × Tensor))
    (to_remove_ids : List Int) : List (String × Tensor) :=
  match List.lookup "semantic_ids" params with
  | none => params
  | some sem =>
    let to_keep_mask := (toRemoveMask sem.rows to_remove_ids).map (fun b => !b)
    params.map (fun e =>
      if e.1 = "cam_unnorm_rots" ∨ e.1 = "cam_trans" then e
      else (e.1, maskRows e.2 to_keep_mask))

/-- Observable events of the driver's tail: opening the tracking run, the two
evaluation routines (with their output directory and whether an explicit
tracking handle is passed), and closing the tracking run. -/
inductive Ev where
  | wandbInit
  | callEvalTrain (dir : List Char) (hasWandbRun : Bool)
  | callEvalNvs (dir : List Char) (hasWandbRun : Bool)
  | wandbFinish
  deriving DecidableEq, Repr

/-- `True` on the train-split evaluation call. -/
def Ev.isEvalTrainCall : Ev → Bool
  | .callEvalTrain _ _ => true
  | _ => false

/-- `True` on the novel-view evaluation call. -/
def Ev.isEvalNvsCall : Ev → Bool
  | .callEvalNvs _ _ => true
  | _ => false

/-- `True` on any tracking-service call. -/
def Ev.isWandbCall : Ev → Bool
  | .wandbInit => true
  | .wandbFinish => true
  | _ => false

/-- The evaluation output directory: `eval_train` under the results directory
for the training split, `eval_nvs` for the novel-view split. -/
def eval_dir (results_dir : List Char) (use_train_split : Bool) : List Char :=
  if use_train_split then joinPath results_dir ("eval_train".toList)
  else joinPath results_dir ("eval_nvs".toList)

/-- Events of the driver from the `use_train_split` branch that picks the
evaluation directory to the end of the script: `wandb.init` when `use_wandb`,
then exactly one evaluation call (passing a tracking handle exactly when
`use_wandb`), then `wandb_run.finish()` when `use_wandb` — but only if the
evaluation call returned; an exception propagates past the `finish()` line,
which is not protected by any `try`/`finally`. -/
def driverTailTrace (use_wandb use_train_split : Bool) (results_dir : List Char)
    (evalRaises : Bool) : List Ev :=
  (if use_wandb then [Ev.wandbInit] else []) ++
  [if use_train_split then
     Ev.callEvalTrain (eval_dir results_dir use_train_split) use_wandb
   else
     Ev.callEvalNvs (eval_dir results_dir use_train_split) use_wandb] ++
  (if evalRaises then [] else if use_wandb then [Ev.wandbFinish] else [])

/-- A filesystem as the driver touches it: which directories exist and what
content each file path holds. -/
structure Fs where
  dirs : List Char → Bool
  files : List Char → Option (List Char)

/-- The directories `os.makedirs(p, ...)` guarantees to exist afterwards:
`p` itself and every nonempty ancestor of `p` (each strict segment of the path
before a separator — `os.makedirs` recursively creates missing parent
directories before the leaf). -/
def mkdirsCreates (p : List Char) : List (List Char) :=
  p :: (List.range p.length).filterMap (fun i =>
    if p[i]? = some '/' ∧ 0 < i then some (p.take i) else none)

/-- `os.makedirs(p, exist_ok=True)`: afterwards `p` and all its (previously
missing) ancestor directories exist; no error and no other change for
directories that already existed. -/
def makedirs_exist_ok (fs : Fs) (p : List Char) : Fs :=
  { fs with dirs := fun q => if q ∈ mkdirsCreates p then true else fs.dirs q }

/-- `shutil.copy(src, dst)`: raises `FileNotFoundError` (leaving the
filesystem unchanged) when `src` does not exist; otherwise `dst` now holds the
content of `src`. -/
def shutil_copy (fs : Fs) (src dst : List Char) : Except String Fs :=
  match fs.files src with
  | none => .error "FileNotFoundError"
  | some c =>
    .ok { fs with files := fun q => if q = dst then some c else fs.files q }

/-- The driver's results-directory step: when `load_checkpoint` is false,
create the results directory (exist-ok, parents included) and copy the
experiment config into `<results_dir>/config.py`; when true, do nothing. -/
def setupResultsDir (load_checkpoint : Bool) (results_dir experiment_path : List Char)
    (fs : Fs) : Except String Fs :=
  if load_checkpoint = false then
    shutil_copy (makedirs_exist_ok fs results_dir) experiment_path
      (joinPath results_dir ("config.py".toList))
  else .ok fs

end EvalNovelView

namespace EvalNovelView

theorem joinPath_of_normal (a b : List Char) (ha : a ≠ [])
    (hb : b.head? ≠ some '/') (hal : a.getLast? ≠ some '/') :
    joinPath a b = a ++ '/' :: b := by
  simp [joinPath, hb, ha, hal]

end EvalNovelView

namespace EvalNovelView

/-- C4: with no `scene_path` key the archive path is
`<workdir>/<run_name>/params.npz`; with the key present its value is used
unmodified.  The path-concatenation form assumes the configured components are
well-formed (nonempty, no leading/trailing separators), since `os.path.join`
deviates from plain concatenation otherwise. -/
theorem scene_path_resolution (workdir runName : List Char)
    (hw : workdir ≠ []) (hwl : workdir.getLast? ≠ some '/')
    (hr : runName ≠ []) (hrh : runName.head? ≠ some '/')
    (hrl : runName.getLast? ≠ some '/') :
    scenePathOf workdir runName none =
      workdir ++ '/' :: runName ++ '/' :: "params.npz".toList ∧
    ∀ p : List Char, scenePathOf workdir runName (some p) = p := by
  constructor
  · have h1 : joinPath workdir runName = workdir ++ '/' :: runName :=
      joinPath_of_normal workdir runName hw hrh hwl
    have h2 : (workdir ++ '/' :: runName) ≠ [] := by
      intro h; exact hw (List.append_eq_nil.mp h).1
    have h3 : (workdir ++ '/' :: runName).getLast? ≠ some '/' := by
      rw [List.getLast?_append_cons]
      cases runName with
      | nil => exact absurd rfl hr
      | cons x xs => rw [List.getLast?_cons_cons]; exact hrl
    have h4 : ("params.npz".toList).head? ≠ some '/' := by decide
    show joinPath (joinPath workdir runName) ("params.npz".toList) = _
    rw [h1, joinPath_of_normal _ _ h2 h4 h3, List.append_assoc]
  · intro p; rfl

/-- Witness for C4 at concrete components. -/
theorem scene_path_resolution_witness :
    scenePathOf ("/work".toList) ("run1".toList) none =
      ("/work/run1/params.npz".toList) ∧
    scenePathOf ("/work".toList) ("run1".toList) (some ("/x/p.npz".toList)) =
      ("/x/p.npz".toList) := by
  have h := scene_path_resolution ("/work".toList) ("run1".toList)
    (by decide) (by decide) (by decide) (by decide) (by decide)
  exact ⟨h.1, h.2 _⟩

end EvalNovelView

namespace EvalNovelView

theorem lookup_setDefault_of_none {d : Dict} {k : String} {v : Val}
    (h : d.lookup k = none) : (d.setDefault k v).lookup k = some v := by
  have hd : d.setDefault k v = (k, v) :: d := by simp [Dict.setDefault, h]
  rw [hd]
  show List.lookup k ((k, v) :: d) = some v
  rw [List.lookup_cons]
  simp

theorem lookup_setDefault_of_some {d : Dict} {k k' : String} {v v' : Val}
    (h : d.lookup k' = some v') : (d.setDefault k v).lookup k' = some v' := by
  by_cases hk : (d.lookup k).isSome
  · simpa [Dict.setDefault, hk] using h
  · have hd : d.setDefault k v = (k, v) :: d := by simp [Dict.setDefault, hk]
    have hkk : k ≠ k' := by
      rintro rfl; rw [h] at hk; simp at hk
    rw [hd]
    show List.lookup k' ((k, v) :: d) = some v'
    have hb : (k' == k) = false := beq_eq_false_iff_ne.mpr (Ne.symm hkk)
    simp only [List.lookup_cons, hb]
    exact h

theorem lookup_setDefault_of_none_ne {d : Dict} {k k' : String} {v : Val}
    (hkk : k ≠ k') (h : d.lookup k' = none) :
    (d.setDefault k v).lookup k' = none := by
  by_cases hk : (d.lookup k).isSome
  · simpa [Dict.setDefault, hk] using h
  · have hd : d.setDefault k v = (k, v) :: d := by simp [Dict.setDefault, hk]
    rw [hd]
    show List.lookup k' ((k, v) :: d) = none
    have hb : (k' == k) = false := beq_eq_false_iff_ne.mpr (Ne.symm hkk)
    simp only [List.lookup_cons, hb]
    exact h

/-- C8: `ignore_bad` defaults to `False` and `use_train_split` defaults to
`True` when absent from the dataset sub-record, and every key already present
keeps its configured value. -/
theorem dataset_defaults (d : Dict) :
    (d.lookup "ignore_bad" = none →
      (applyDatasetDefaults d).lookup "ignore_bad" = some (.vBool false)) ∧
    (d.lookup "use_train_split" = none →
      (applyDatasetDefaults d).lookup "use_train_split" = some (.vBool true)) ∧
    (∀ k v, d.lookup k = some v → (applyDatasetDefaults d).lookup k = some v) := by
  refine ⟨?_, ?_, ?_⟩
  · intro h
    exact lookup_setDefault_of_some (lookup_setDefault_of_none h)
  · intro h
    exact lookup_setDefault_of_none (lookup_setDefault_of_none_ne (by decide) h)
  · intro k v h
    exact lookup_setDefault_of_some (lookup_setDefault_of_some h)

/-- Witness for C8: defaults applied to a record missing both keys, and a
configured `ignore_bad=True` surviving defaulting. -/
theorem dataset_defaults_witness :
    (applyDatasetDefaults [("basedir", .vStr "/d".toList)]).lookup "ignore_bad" =
      some (.vBool false) ∧
    (applyDatasetDefaults [("basedir", .vStr "/d".toList)]).lookup "use_train_split" =
      some (.vBool true) ∧
    (applyDatasetDefaults [("ignore_bad", .vBool true)]).lookup "ignore_bad" =
      some (.vBool true) :=
  ⟨(dataset_defaults [("basedir", .vStr "/d".toList)]).1 (by rfl),
   (dataset_defaults [("basedir", .vStr "/d".toList)]).2.1 (by rfl),
   (dataset_defaults [("ignore_bad", .vBool true)]).2.2 "ignore_bad"
     (.vBool true) (by rfl)⟩

/-- C9: `num_frames` is a required key of the dataset sub-record (its absence
is a key-lookup failure), and the frame count passed on equals `len(dataset)`
when the configured value is `-1` and the configured value otherwise. -/
theorem num_frames_resolution (d : Dict) (L : Nat) :
    (d.lookup "num_frames" = none →
      resolveNumFrames d L = .error "KeyError: num_frames") ∧
    (d.lookup "num_frames" = some (.vInt (-1)) →
      resolveNumFrames d L = .ok (.vInt (L : Int))) ∧
    (∀ v, d.lookup "num_frames" = some v → v ≠ .vInt (-1) →
      resolveNumFrames d L = .ok v) := by
  refine ⟨?_, ?_, ?_⟩
  · intro h; simp [resolveNumFrames, h]
  · intro h; simp [resolveNumFrames, h]
  · intro v h hv; simp [resolveNumFrames, h, hv]

/-- Witness for C9 at concrete sub-records: missing key, `-1`, and `7`. -/
theorem num_frames_resolution_witness :
    resolveNumFrames [("basedir", .vStr "/d".toList)] 5 =
      .error "KeyError: num_frames" ∧
    resolveNumFrames [("num_frames", .vInt (-1))] 5 = .ok (.vInt 5) ∧
    resolveNumFrames [("num_frames", .vInt 7)] 5 = .ok (.vInt 7) :=
  ⟨(num_frames_resolution [("basedir", .vStr "/d".toList)] 5).1 (by rfl),
   (num_frames_resolution [("num_frames", .vInt (-1))] 5).2.1 (by rfl),
   (num_frames_resolution [("num_frames", .vInt 7)] 5).2.2 (.vInt 7)
     (by rfl) (by decide)⟩

/-- C10: the semantics configuration is keyed on the presence of
`load_semantics`, not its value: when present (even as `False`),
`num_semantic_classes` is required and `semantic_ids` joins the exclusion set;
when absent the driver uses `False`, `0` and an empty exclusion set. -/
theorem semantics_keyed_on_presence (d : Dict) :
    (∀ v, d.lookup "load_semantics" = some v →
      (d.lookup "num_semantic_classes" = none →
        semanticsSetup d = .error "KeyError: num_semantic_classes") ∧
      (∀ c, d.lookup "num_semantic_classes" = some c →
        semanticsSetup d = .ok (v, c, ["semantic_ids"]))) ∧
    (d.lookup "load_semantics" = none →
      semanticsSetup d = .ok (.vBool false, .vInt 0, [])) := by
  constructor
  · intro v h
    constructor
    · intro hc; simp [semanticsSetup, h, hc]
    · intro c hc; simp [semanticsSetup, h, hc]
  · intro h; simp [semanticsSetup, h]

/-- Witness for C10: `load_semantics=False` still requires
`num_semantic_classes` and still excludes `semantic_ids`; the absent case
yields the inert configuration. -/
theorem semantics_keyed_on_presence_witness :
    semanticsSetup [("load_semantics", .vBool false)] =
      .error "KeyError: num_semantic_classes" ∧
    semanticsSetup [("load_semantics", .vBool false), ("num_semantic_classes", .vInt 3)] =
      .ok (.vBool false, .vInt 3, ["semantic_ids"]) ∧
    semanticsSetup [("basedir", .vStr "/d".toList)] =
      .ok (.vBool false, .vInt 0, []) :=
  ⟨((semantics_keyed_on_presence [("load_semantics", .vBool false)]).1
      (.vBool false) (by rfl)).1 (by rfl),
   ((semantics_keyed_on_presence
      [("load_semantics", .vBool false), ("num_semantic_classes", .vInt 3)]).1
      (.vBool false) (by rfl)).2 (.vInt 3) (by rfl),
   (semantics_keyed_on_presence [("basedir", .vStr "/d".toList)]).2 (by rfl)⟩

end EvalNovelView

namespace EvalNovelView

/-- C3 (as stated) is false: the string `azure` matches none of the ten
supported dataset names case-insensitively, yet `get_dataset` does not fail on
it — it constructs the AzureKinect adapter. -/
theorem get_dataset_azure_alias_counterexample :
    (∀ n ∈ supportedDatasetNames, pyLower "azure" ≠ pyLower n) ∧
    get_dataset "azure" = .ok ⟨.AzureKinect, true⟩ := by
  constructor
  · decide
  · rfl

/-- C3 (amended): `get_dataset` resolves, by case-insensitive exact match, the
ten supported dataset names and additionally the alias `azure` (also mapped to
the AzureKinect adapter, config dict included); ScannetPP is constructed
without the config dict; every other string fails fast with the
unknown-dataset error. -/
theorem get_dataset_dispatch (s : String) :
    (pyLower s = "icl" → get_dataset s = .ok ⟨.ICL, true⟩) ∧
    (pyLower s = "replica" → get_dataset s = .ok ⟨.Replica, true⟩) ∧
    (pyLower s = "replicav2" → get_dataset s = .ok ⟨.ReplicaV2, true⟩) ∧
    (pyLower s = "azure" ∨ pyLower s = "azurekinect" →
      get_dataset s = .ok ⟨.AzureKinect, true⟩) ∧
    (pyLower s = "scannet" → get_dataset s = .ok ⟨.Scannet, true⟩) ∧
    (pyLower s = "ai2thor" → get_dataset s = .ok ⟨.Ai2thor, true⟩) ∧
    (pyLower s = "record3d" → get_dataset s = .ok ⟨.Record3D, true⟩) ∧
    (pyLower s = "realsense" → get_dataset s = .ok ⟨.Realsense, true⟩) ∧
    (pyLower s = "tum" → get_dataset s = .ok ⟨.TUM, true⟩) ∧
    (pyLower s = "scannetpp" → get_dataset s = .ok ⟨.ScannetPP, false⟩) ∧
    (pyLower s ∉ acceptedDatasetNames →
      get_dataset s = .error ("Unknown dataset name " ++ s)) := by
  refine ⟨?_, ?_, ?_, ?_, ?_, ?_, ?_, ?_, ?_, ?_, ?_⟩
  · intro h; simp [get_dataset, h]
  · intro h; simp [get_dataset, h]
  · intro h; simp [get_dataset, h]
  · rintro (h | h) <;> simp [get_dataset, h]
  · intro h; simp [get_dataset, h]
  · intro h; simp [get_dataset, h]
  · intro h; simp [get_dataset, h]
  · intro h; simp [get_dataset, h]
  · intro h; simp [get_dataset, h]
  · intro h; simp [get_dataset, h]
  · intro h
    simp only [acceptedDatasetNames, List.mem_cons, List.not_mem_nil, or_false,
      not_or] at h
    obtain ⟨h1, h2, h3, h4, h5, h6, h7, h8, h9, h10, h11⟩ := h
    simp [get_dataset, h1, h2, h3, h4, h5, h6, h7, h8, h9, h10, h11]

/-- Witness for the amended C3: a mixed-case supported name, the ScannetPP
reduced constructor, and an unknown name. -/
theorem get_dataset_dispatch_witness :
    get_dataset "Replica" = .ok ⟨.Replica, true⟩ ∧
    get_dataset "ScanNetPP" = .ok ⟨.ScannetPP, false⟩ ∧
    get_dataset "kitti" = .error ("Unknown dataset name " ++ "kitti") :=
  ⟨(get_dataset_dispatch "Replica").2.1 (by rfl),
   (get_dataset_dispatch "ScanNetPP").2.2.2.2.2.2.2.2.2.1 (by rfl),
   (get_dataset_dispatch "kitti").2.2.2.2.2.2.2.2.2.2 (by decide)⟩

end EvalNovelView

namespace EvalNovelView

/-- C1: every entry produced by `load_scene_data` whose key is outside the
exclusion set is a floating-point, gradient-tracked tensor on the configured
device; every entry whose key is excluded is device-resident, not
gradient-tracked, and keeps the dtype and data of its archive array. -/
theorem load_scene_data_spec (archive : List (String × NpArray))
    (excl : List String) (device : String) (p : String × Tensor)
    (hp : p ∈ load_scene_data archive excl device) :
    (excl.contains p.1 = false →
      p.2.isFloat = true ∧ p.2.requiresGrad = true ∧ p.2.device = device) ∧
    (excl.contains p.1 = true →
      p.2.device = device ∧ p.2.requiresGrad = false ∧
      ∃ a : NpArray, (p.1, a) ∈ archive ∧ p.2.isFloat = a.dtypeFloat ∧
        p.2.rows = a.rows) := by
  unfold load_scene_data at hp
  rcases List.mem_map.mp hp with ⟨e, he, heq⟩
  by_cases hc : excl.contains e.1 = false
  · rw [if_pos hc] at heq
    subst heq
    refine ⟨fun _ => ⟨rfl, rfl, rfl⟩, fun h => ?_⟩
    rw [hc] at h; cases h
  · have hc' : excl.contains e.1 = true := by simpa using hc
    rw [if_neg hc] at heq
    subst heq
    refine ⟨fun h => ?_, fun _ => ⟨rfl, rfl, e.2, ?_, rfl, rfl⟩⟩
    · rw [hc'] at h; cases h
    · show ((e.1, e.2) : String × NpArray) ∈ archive
      rwa [Prod.mk.eta]

/-- Witness for C1: a two-entry archive with `semantic_ids` excluded. -/
theorem load_scene_data_spec_witness :
    ((("means", (⟨"cuda", true, true, [[1]]⟩ : Tensor)) : String × Tensor) ∈
       load_scene_data [("means", ⟨false, [[1]]⟩), ("semantic_ids", ⟨false, [[0]]⟩)]
         ["semantic_ids"] "cuda") ∧
    ((⟨"cuda", true, true, [[1]]⟩ : Tensor).isFloat = true ∧
     (⟨"cuda", true, true, [[1]]⟩ : Tensor).requiresGrad = true ∧
     (⟨"cuda", true, true, [[1]]⟩ : Tensor).device = "cuda") ∧
    ((("semantic_ids", (⟨"cuda", false, false, [[0]]⟩ : Tensor)) : String × Tensor) ∈
       load_scene_data [("means", ⟨false, [[1]]⟩), ("semantic_ids", ⟨false, [[0]]⟩)]
         ["semantic_ids"] "cuda") ∧
    ((⟨"cuda", false, false, [[0]]⟩ : Tensor).device = "cuda" ∧
     (⟨"cuda", false, false, [[0]]⟩ : Tensor).requiresGrad = false ∧
     ∃ a : NpArray,
       (("semantic_ids", a) : String × NpArray) ∈
         [(("means", ⟨false, [[1]]⟩) : String × NpArray), ("semantic_ids", ⟨false, [[0]]⟩)] ∧
       (⟨"cuda", false, false, [[0]]⟩ : Tensor).isFloat = a.dtypeFloat ∧
       (⟨"cuda", false, false, [[0]]⟩ : Tensor).rows = a.rows) :=
  ⟨by decide,
   (load_scene_data_spec [("means", ⟨false, [[1]]⟩), ("semantic_ids", ⟨false, [[0]]⟩)]
      ["semantic_ids"] "cuda" ("means", ⟨"cuda", true, true, [[1]]⟩)
      (by decide)).1 (by decide),
   by decide,
   (load_scene_data_spec [("means", ⟨false, [[1]]⟩), ("semantic_ids", ⟨false, [[0]]⟩)]
      ["semantic_ids"] "cuda" ("semantic_ids", ⟨"cuda", false, false, [[0]]⟩)
      (by decide)).2 (by decide)⟩

end EvalNovelView

namespace EvalNovelView

theorem zip_map_filter_aux (g : List Int → Bool)
    (rows semRows : List (List Int)) :
    ((rows.zip (semRows.map g)).filter (fun rb => rb.2)).map (fun rb => rb.1) =
    ((rows.zip semRows).filter (fun rs => g rs.2)).map (fun rs => rs.1) := by
  induction rows generalizing semRows with
  | nil => simp
  | cons r rs ih =>
    cases semRows with
    | nil => simp
    | cons s ss =>
      by_cases hg : g s = true
      · simp [List.filter_cons, hg, ih]
      · simp [List.filter_cons, hg, ih]

/-- C2: when the parameter mapping has a `semantic_ids` entry,
`filter_semantic_params` leaves the two camera-pose entries untouched, applies
one and the same keep mask to every other entry, and that mask keeps exactly
the rows whose semantic id row contains no excluded id. -/
theorem filter_semantic_params_spec (params : List (String × Tensor))
    (ids : List Int) (sem : Tensor)
    (hsem : List.lookup "semantic_ids" params = some sem) :
    (∀ e ∈ params, (e.1 = "cam_unnorm_rots" ∨ e.1 = "cam_trans") →
        e ∈ filter_semantic_params params ids) ∧
    (∀ e ∈ params, ¬(e.1 = "cam_unnorm_rots" ∨ e.1 = "cam_trans") →
        (e.1, maskRows e.2 ((toRemoveMask sem.rows ids).map (fun b => !b))) ∈
          filter_semantic_params params ids) ∧
    (∀ t : Tensor,
        (maskRows t ((toRemoveMask sem.rows ids).map (fun b => !b))).rows =
          ((t.rows.zip sem.rows).filter
            (fun rs => !(rs.2.any (fun v => ids.contains v)))).map
            (fun rs => rs.1)) := by
  refine ⟨?_, ?_, ?_⟩
  · intro e he hcam
    unfold filter_semantic_params
    rw [hsem]
    show e ∈ List.map (fun e : String × Tensor =>
        if e.1 = "cam_unnorm_rots" ∨ e.1 = "cam_trans" then e
        else (e.1, maskRows e.2 ((toRemoveMask sem.rows ids).map (fun b => !b)))) params
    exact List.mem_map.mpr ⟨e, he, by simp [hcam]⟩
  · intro e he hcam
    unfold filter_semantic_params
    rw [hsem]
    show (e.1, maskRows e.2 ((toRemoveMask sem.rows ids).map (fun b => !b))) ∈
      List.map (fun e : String × Tensor =>
        if e.1 = "cam_unnorm_rots" ∨ e.1 = "cam_trans" then e
        else (e.1, maskRows e.2 ((toRemoveMask sem.rows ids).map (fun b => !b)))) params
    exact List.mem_map.mpr ⟨e, he, by simp [hcam]⟩
  · intro t
    show ((t.rows.zip ((toRemoveMask sem.rows ids).map (fun b => !b))).filter
        (fun rb => rb.2)).map (fun rb => rb.1) = _
    rw [toRemoveMask, List.map_map]
    exact zip_map_filter_aux _ t.rows sem.rows

/-- Witness for C2: `semantic_ids` of shape (4,1) with values `[0,1,2,0]` and
exclusion set `{0}`: every masked parameter retains exactly the 2 rows with
ids 1 and 2, and `cam_trans` is unchanged. -/
theorem filter_semantic_params_spec_witness :
    ((("cam_trans", (⟨"cuda", true, true, [[1],[2]]⟩ : Tensor)) : String × Tensor) ∈
      filter_semantic_params
        [("means3D", ⟨"cuda", true, true, [[10],[20],[30],[40]]⟩),
         ("semantic_ids", ⟨"cuda", false, false, [[0],[1],[2],[0]]⟩),
         ("cam_trans", ⟨"cuda", true, true, [[1],[2]]⟩)] [0]) ∧
    ((("means3D",
        maskRows (⟨"cuda", true, true, [[10],[20],[30],[40]]⟩ : Tensor)
          ((toRemoveMask [[0],[1],[2],[0]] [0]).map (fun b => !b))) : String × Tensor) ∈
      filter_semantic_params
        [("means3D", ⟨"cuda", true, true, [[10],[20],[30],[40]]⟩),
         ("semantic_ids", ⟨"cuda", false, false, [[0],[1],[2],[0]]⟩),
         ("cam_trans", ⟨"cuda", true, true, [[1],[2]]⟩)] [0]) ∧
    maskRows (⟨"cuda", true, true, [[10],[20],[30],[40]]⟩ : Tensor)
      ((toRemoveMask [[0],[1],[2],[0]] [0]).map (fun b => !b)) =
      (⟨"cuda", true, true, [[20],[30]]⟩ : Tensor) ∧
    ((("semantic_ids",
        maskRows (⟨"cuda", false, false, [[0],[1],[2],[0]]⟩ : Tensor)
          ((toRemoveMask [[0],[1],[2],[0]] [0]).map (fun b => !b))) : String × Tensor) ∈
      filter_semantic_params
        [("means3D", ⟨"cuda", true, true, [[10],[20],[30],[40]]⟩),
         ("semantic_ids", ⟨"cuda", false, false, [[0],[1],[2],[0]]⟩),
         ("cam_trans", ⟨"cuda", true, true, [[1],[2]]⟩)] [0]) ∧
    (maskRows (⟨"cuda", true, true, [[10],[20],[30],[40]]⟩ : Tensor)
      ((toRemoveMask [[0],[1],[2],[0]] [0]).map (fun b => !b))).rows.length = 2 ∧
    (maskRows (⟨"cuda", false, false, [[0],[1],[2],[0]]⟩ : Tensor)
      ((toRemoveMask [[0],[1],[2],[0]] [0]).map (fun b => !b))).rows.length = 2 :=
  ⟨(filter_semantic_params_spec
      [("means3D", ⟨"cuda", true, true, [[10],[20],[30],[40]]⟩),
       ("semantic_ids", ⟨"cuda", false, false, [[0],[1],[2],[0]]⟩),
       ("cam_trans", ⟨"cuda", true, true, [[1],[2]]⟩)] [0]
      (⟨"cuda", false, false, [[0],[1],[2],[0]]⟩ : Tensor) (by decide)).1
      ("cam_trans", ⟨"cuda", true, true, [[1],[2]]⟩) (by decide) (by decide),
   (filter_semantic_params_spec
      [("means3D", ⟨"cuda", true, true, [[10],[20],[30],[40]]⟩),
       ("semantic_ids", ⟨"cuda", false, false, [[0],[1],[2],[0]]⟩),
       ("cam_trans", ⟨"cuda", true, true, [[1],[2]]⟩)] [0]
      (⟨"cuda", false, false, [[0],[1],[2],[0]]⟩ : Tensor) (by decide)).2.1
      ("means3D", ⟨"cuda", true, true, [[10],[20],[30],[40]]⟩) (by decide) (by decide),
   by decide,
   (filter_semantic_params_spec
      [("means3D", ⟨"cuda", true, true, [[10],[20],[30],[40]]⟩),
       ("semantic_ids", ⟨"cuda", false, false, [[0],[1],[2],[0]]⟩),
       ("cam_trans", ⟨"cuda", true, true, [[1],[2]]⟩)] [0]
      (⟨"cuda", false, false, [[0],[1],[2],[0]]⟩ : Tensor) (by decide)).2.1
      ("semantic_ids", ⟨"cuda", false, false, [[0],[1],[2],[0]]⟩) (by decide) (by decide),
   by decide,
   by decide⟩

end EvalNovelView

namespace EvalNovelView

/-- C5: the driver invokes exactly one evaluation routine — the train-split
one (under `<results_dir>/eval_train`) when `use_train_split` is true, the
novel-view one (under `<results_dir>/eval_nvs`) when it is false — and never
the other, whichever tracking or exception branch is taken. -/
theorem eval_dispatch (u t r : Bool) (results_dir : List Char)
    (hd : results_dir ≠ []) (hdl : results_dir.getLast? ≠ some '/') :
    ((driverTailTrace u t results_dir r).countP (fun e => e.isEvalTrainCall) =
      if t then 1 else 0) ∧
    ((driverTailTrace u t results_dir r).countP (fun e => e.isEvalNvsCall) =
      if t then 0 else 1) ∧
    (t = true →
      Ev.callEvalTrain (results_dir ++ '/' :: "eval_train".toList) u ∈
        driverTailTrace u t results_dir r) ∧
    (t = false →
      Ev.callEvalNvs (results_dir ++ '/' :: "eval_nvs".toList) u ∈
        driverTailTrace u t results_dir r) := by
  have h1 : eval_dir results_dir true = results_dir ++ '/' :: "eval_train".toList := by
    show joinPath results_dir ("eval_train".toList) = _
    exact joinPath_of_normal _ _ hd (by decide) hdl
  have h2 : eval_dir results_dir false = results_dir ++ '/' :: "eval_nvs".toList := by
    show joinPath results_dir ("eval_nvs".toList) = _
    exact joinPath_of_normal _ _ hd (by decide) hdl
  cases u <;> cases t <;> cases r <;>
    simp [driverTailTrace, h1, h2, Ev.isEvalTrainCall, Ev.isEvalNvsCall,
      List.countP_cons, List.countP_nil]

/-- Witness for C5 at a concrete results directory, both split flags. -/
theorem eval_dispatch_witness :
    ((driverTailTrace false true ("/r".toList) false).countP
      (fun e => e.isEvalTrainCall) = 1) ∧
    ((driverTailTrace false true ("/r".toList) false).countP
      (fun e => e.isEvalNvsCall) = 0) ∧
    (Ev.callEvalTrain (("/r".toList) ++ '/' :: "eval_train".toList) false ∈
      driverTailTrace false true ("/r".toList) false) ∧
    ((driverTailTrace true false ("/r".toList) false).countP
      (fun e => e.isEvalNvsCall) = 1) ∧
    (Ev.callEvalNvs (("/r".toList) ++ '/' :: "eval_nvs".toList) true ∈
      driverTailTrace true false ("/r".toList) false) :=
  ⟨(eval_dispatch false true false ("/r".toList) (by decide) (by decide)).1,
   (eval_dispatch false true false ("/r".toList) (by decide) (by decide)).2.1,
   (eval_dispatch false true false ("/r".toList) (by decide) (by decide)).2.2.1 rfl,
   (eval_dispatch true false false ("/r".toList) (by decide) (by decide)).2.1,
   (eval_dispatch true false false ("/r".toList) (by decide) (by decide)).2.2.2 rfl⟩

/-- C6 (as stated) is false: with tracking enabled and an evaluation call that
raises, the tracking run is opened but never closed — there is no
`try`/`finally` around the evaluation call. -/
theorem wandb_unclosed_on_raise_counterexample :
    Ev.wandbInit ∈ driverTailTrace true true ("/r".toList) true ∧
    Ev.wandbFinish ∉ driverTailTrace true true ("/r".toList) true := by
  decide

/-- C6 (amended): with tracking disabled no tracking call is made; with
tracking enabled the run is opened exactly once before the evaluation call,
and it is closed (exactly once, after the evaluation call) if and only if the
evaluation call returns normally — when the evaluation raises, the run is
left unclosed. -/
theorem wandb_lifecycle (u t r : Bool) (results_dir : List Char) :
    (u = false → ∀ e ∈ driverTailTrace u t results_dir r, e.isWandbCall = false) ∧
    (u = true → (driverTailTrace u t results_dir r).head? = some Ev.wandbInit ∧
      (driverTailTrace u t results_dir r).count Ev.wandbInit = 1) ∧
    (u = true → r = false →
      (driverTailTrace u t results_dir r).getLast? = some Ev.wandbFinish ∧
      (driverTailTrace u t results_dir r).count Ev.wandbFinish = 1) ∧
    (u = true → r = true →
      Ev.wandbFinish ∉ driverTailTrace u t results_dir r) := by
  cases u <;> cases t <;> cases r <;>
    simp [driverTailTrace, Ev.isWandbCall, List.count_cons, List.count_nil,
      List.getLast?_cons_cons]

/-- Witness for C6 (amended): tracking enabled with a normal return opens and
closes around the evaluation; with tracking disabled the trace has no
tracking call. -/
theorem wandb_lifecycle_witness :
    (driverTailTrace true false ("/r".toList) false).head? = some Ev.wandbInit ∧
    (driverTailTrace true false ("/r".toList) false).count Ev.wandbInit = 1 ∧
    (driverTailTrace true false ("/r".toList) false).getLast? = some Ev.wandbFinish ∧
    (driverTailTrace true false ("/r".toList) false).count Ev.wandbFinish = 1 ∧
    Ev.wandbInit ∉ driverTailTrace false false ("/r".toList) false :=
  ⟨((wandb_lifecycle true false false ("/r".toList)).2.1 rfl).1,
   ((wandb_lifecycle true false false ("/r".toList)).2.1 rfl).2,
   ((wandb_lifecycle true false false ("/r".toList)).2.2.1 rfl rfl).1,
   ((wandb_lifecycle true false false ("/r".toList)).2.2.1 rfl rfl).2,
   fun hmem =>
     absurd ((wandb_lifecycle false false false ("/r".toList)).1 rfl
       Ev.wandbInit hmem) (by decide)⟩

end EvalNovelView

namespace EvalNovelView

/-- C7 (as stated) is false on the `load_checkpoint=false` branch: starting
from a filesystem where the parent `/w` of the results directory `/w/r1` does
not exist, `os.makedirs(results_dir, exist_ok=True)` also creates `/w` — a
path distinct from both the results directory and the copied config file — so
the step does change another part of the filesystem state. -/
theorem results_dir_parent_creation_counterexample :
    Fs.dirs
      (⟨fun _ => false,
        fun q => if q = "/e.py".toList then some ("cfg".toList) else none⟩ : Fs)
      ("/w".toList) = false ∧
    (setupResultsDir false ("/w/r1".toList) ("/e.py".toList)
      ⟨fun _ => false,
       fun q => if q = "/e.py".toList then some ("cfg".toList) else none⟩).toOption.map
      (fun f => f.dirs ("/w".toList)) = some true ∧
    ("/w".toList ≠ "/w/r1".toList) ∧
    ("/w".toList ≠ joinPath ("/w/r1".toList) ("config.py".toList)) := by
  exact ⟨rfl, rfl, by decide, by decide⟩

/-- C7 (amended): with `load_checkpoint=true` the results-directory step
performs no side effect at all; with `load_checkpoint=false` (and the
experiment config file present, as it is when the driver runs) it creates the
results directory together with its missing ancestor directories, copies the
config to `<results_dir>/config.py`, changes no directory outside the results
directory and its ancestors and no file other than the copied config, and
repeating the step succeeds and leaves the filesystem unchanged (idempotent,
no error when the directory already exists). -/
theorem results_dir_setup (lc : Bool) (rd ep : List Char) (fs : Fs)
    (c : List Char) (hsrc : fs.files ep = some c) :
    (lc = true → setupResultsDir lc rd ep fs = .ok fs) ∧
    (lc = false → ∃ fs2, setupResultsDir lc rd ep fs = .ok fs2 ∧
      fs2.dirs rd = true ∧
      (∀ q ∈ mkdirsCreates rd, fs2.dirs q = true) ∧
      fs2.files (joinPath rd ("config.py".toList)) = some c ∧
      (∀ q, q ∉ mkdirsCreates rd → fs2.dirs q = fs.dirs q) ∧
      (∀ q, q ≠ joinPath rd ("config.py".toList) → fs2.files q = fs.files q) ∧
      (ep ≠ joinPath rd ("config.py".toList) →
        ∃ fs3, setupResultsDir lc rd ep fs2 = .ok fs3 ∧
          (∀ q, fs3.dirs q = fs2.dirs q) ∧
          (∀ q, fs3.files q = fs2.files q))) := by
  constructor
  · rintro rfl
    rfl
  · rintro rfl
    have hstep : ∀ g : Fs, g.files ep = some c →
        setupResultsDir false rd ep g = .ok
          (⟨fun q => if q ∈ mkdirsCreates rd then true else g.dirs q,
            fun q => if q = joinPath rd ("config.py".toList) then some c
                     else g.files q⟩ : Fs) := by
      intro g hg
      show shutil_copy (makedirs_exist_ok g rd) ep (joinPath rd ("config.py".toList)) = _
      have h1 : (makedirs_exist_ok g rd).files ep = some c := hg
      unfold shutil_copy
      rw [h1]
      rfl
    refine ⟨_, hstep fs hsrc, ?_, ?_, ?_, ?_, ?_, ?_⟩
    · have hm : rd ∈ mkdirsCreates rd := by
        unfold mkdirsCreates
        exact List.mem_cons_self _ _
      show (if rd ∈ mkdirsCreates rd then true else fs.dirs rd) = true
      rw [if_pos hm]
    · intro q hq
      show (if q ∈ mkdirsCreates rd then true else fs.dirs q) = true
      rw [if_pos hq]
    · show (if joinPath rd ("config.py".toList) = joinPath rd ("config.py".toList)
        then some c else fs.files (joinPath rd ("config.py".toList))) = some c
      rw [if_pos rfl]
    · intro q hq
      show (if q ∈ mkdirsCreates rd then true else fs.dirs q) = fs.dirs q
      rw [if_neg hq]
    · intro q hq
      show (if q = joinPath rd ("config.py".toList) then some c else fs.files q) =
        fs.files q
      rw [if_neg hq]
    · intro hne
      have hsrc2 : (⟨fun q => if q ∈ mkdirsCreates rd then true else fs.dirs q,
          fun q => if q = joinPath rd ("config.py".toList) then some c
                   else fs.files q⟩ : Fs).files ep = some c := by
        show (if ep = joinPath rd ("config.py".toList) then some c else fs.files ep) =
          some c
        rw [if_neg hne]
        exact hsrc
      refine ⟨_, hstep _ hsrc2, ?_, ?_⟩
      · intro q
        show (if q ∈ mkdirsCreates rd then true
            else (if q ∈ mkdirsCreates rd then true else fs.dirs q)) =
          (if q ∈ mkdirsCreates rd then true else fs.dirs q)
        by_cases hq : q ∈ mkdirsCreates rd
        · rw [if_pos hq, if_pos hq]
        · rw [if_neg hq]
      · intro q
        show (if q = joinPath rd ("config.py".toList) then some c
            else (if q = joinPath rd ("config.py".toList) then some c
              else fs.files q)) =
          (if q = joinPath rd ("config.py".toList) then some c else fs.files q)
        by_cases hq : q = joinPath rd ("config.py".toList)
        · rw [if_pos hq, if_pos hq]
        · rw [if_neg hq]

/-- Witness for C7 (amended) on a concrete filesystem holding one config
file, under both `load_checkpoint` values. -/
theorem results_dir_setup_witness :
    Fs.files
      (⟨fun _ => false,
        fun q => if q = "/e.py".toList then some ("cfg".toList) else none⟩ : Fs)
      ("/e.py".toList) = some ("cfg".toList) ∧
    setupResultsDir true ("/w/r1".toList) ("/e.py".toList)
      ⟨fun _ => false,
       fun q => if q = "/e.py".toList then some ("cfg".toList) else none⟩ =
      .ok ⟨fun _ => false,
        fun q => if q = "/e.py".toList then some ("cfg".toList) else none⟩ ∧
    (∃ fs2, setupResultsDir false ("/w/r1".toList) ("/e.py".toList)
        ⟨fun _ => false,
         fun q => if q = "/e.py".toList then some ("cfg".toList) else none⟩ =
        .ok fs2 ∧
      fs2.dirs ("/w/r1".toList) = true ∧
      (∀ q ∈ mkdirsCreates ("/w/r1".toList), fs2.dirs q = true) ∧
      fs2.files (joinPath ("/w/r1".toList) ("config.py".toList)) =
        some ("cfg".toList) ∧
      (∀ q, q ∉ mkdirsCreates ("/w/r1".toList) →
        fs2.dirs q = Fs.dirs
          (⟨fun _ => false,
            fun q => if q = "/e.py".toList then some ("cfg".toList) else none⟩ : Fs)
          q) ∧
      (∀ q, q ≠ joinPath ("/w/r1".toList) ("config.py".toList) →
        fs2.files q = Fs.files
          (⟨fun _ => false,
            fun q => if q = "/e.py".toList then some ("cfg".toList) else none⟩ : Fs)
          q) ∧
      (("/e.py".toList) ≠ joinPath ("/w/r1".toList) ("config.py".toList) →
        ∃ fs3, setupResultsDir false ("/w/r1".toList) ("/e.py".toList) fs2 =
            .ok fs3 ∧
          (∀ q, fs3.dirs q = fs2.dirs q) ∧
          (∀ q, fs3.files q = fs2.files q))) :=
  ⟨by decide,
   (results_dir_setup true ("/w/r1".toList) ("/e.py".toList)
      ⟨fun _ => false,
       fun q => if q = "/e.py".toList then some ("cfg".toList) else none⟩
      ("cfg".toList) (by decide)).1 rfl,
   (results_dir_setup false ("/w/r1".toList) ("/e.py".toList)
      ⟨fun _ => false,
       fun q => if q = "/e.py".toList then some ("cfg".toList) else none⟩
      ("cfg".toList) (by decide)).2 rfl⟩

end EvalNovelView
